import Mathlib

/-!
Verification of the sentiment-trading core of the `strader` repository.

The development shallowly embeds the decision procedure of
`src/strader/strategy.py` (`SentimentTrading._calculate_live_signals` and the
configuration done in `SentimentTrading.__init__`), the confirmation bridge and
snapshot publisher of `src/strader/gui.py` (`gui_safe_prompt`,
`handle_prompt_response`, `update_charts`), and the per-symbol cap derivation of
`SentimentTradingApp.handle_submit`.

Python floats are modelled as rationals; Python dicts are modelled as
association lists whose key lists are assumed duplicate-free where a claim
needs it; Python exceptions are modelled with `Except`.  Methods inherited from
the external `bbstrader` package (`exit_positions`, `get_positions_prices`,
`calculate_pct_change`, the tick-info price lookup) are not part of this
repository; they are modelled from the specification's description of their
interface and are marked as such in their doc comments.
-/

namespace Strader

/-- The four trade actions of a `TradeSignal` (`TradeAction.LONG` is the
ENTER_LONG of the spec, `TradeAction.SHORT` is ENTER_SHORT). -/
inductive TradeAction
  | LONG
  | SHORT
  | EXIT_LONG
  | EXIT_SHORT
deriving DecidableEq, Repr

/-- A trade signal as produced by `_calculate_live_signals`:
`TradeSignal(id=self.ID, symbol=symbol, action=...)`. -/
structure TradeSignal where
  id : Nat
  symbol : String
  action : TradeAction
deriving DecidableEq, Repr

/-- The Python exceptions that the embedded code can raise. -/
inductive PyError
  | typeError
  | valueError
  | keyError
  | zeroDivisionError
deriving DecidableEq, Repr

instance {ε α : Type} [DecidableEq ε] [DecidableEq α] : DecidableEq (Except ε α) := fun a b =>
  match a, b with
  | Except.ok x, Except.ok y =>
    match decEq x y with
    | isTrue h => isTrue (by rw [h])
    | isFalse h => isFalse (fun hc => h (Except.ok.inj hc))
  | Except.error x, Except.error y =>
    match decEq x y with
    | isTrue h => isTrue (by rw [h])
    | isFalse h => isFalse (fun hc => h (Except.error.inj hc))
  | Except.ok _, Except.error _ => isFalse (fun hc => Except.noConfusion hc)
  | Except.error _, Except.ok _ => isFalse (fun hc => Except.noConfusion hc)

/-- An open position as read from the ledger: the attributes of a `bbstrader`
position consumed by the strategy are its symbol, its magic number (the owning
strategy's identifier), its type (`0` = long/buy, `1` = short/sell) and its
entry price. -/
structure Position where
  symbol : String
  magic : Nat
  ptype : Nat
  price : ℚ
deriving DecidableEq, Repr

/-- The configuration and cycle state of a `SentimentTrading` instance, as set
up in `SentimentTrading.__init__`: the MT5-symbol-to-ticker mapping
(`self.tickers`, a dict, kept here in insertion order), the sentiment entry
threshold (`self.threshold`), the expected-return threshold (`self.ext_th`),
the global position cap (`self.max_positions`), the per-symbol trade cap dict
(`self.max_trades`), the last published sentiment snapshot
(`self._sentiments`) and the strategy identifier (`self.ID`). -/
structure SentimentTrading where
  tickers : List (String × String)
  threshold : ℚ
  ext_th : ℚ
  max_positions : Nat
  max_trades : List (String × Nat)
  sentiments : List (String × ℚ)
  ID : Nat
deriving DecidableEq, Repr

/-- Modelled from the spec: `calculate_pct_change` is inherited from the
external `bbstrader` base class.  Spec section 4.1: "Percentage move formula:
(current - reference) / reference * 100". -/
def calculate_pct_change (current reference : ℚ) : ℚ :=
  (current - reference) / reference * 100

/-- Minimum of a list of rationals, `min(...)` of Python on a nonempty list
(callers guard against the empty list; the default value 0 is never used by a
guarded call). -/
def listMin : List ℚ → ℚ
  | [] => 0
  | x :: xs => xs.foldl min x

/-- Maximum of a list of rationals, `max(...)` of Python on a nonempty list. -/
def listMax : List ℚ → ℚ
  | [] => 0
  | x :: xs => xs.foldl max x

/-- Modelled from the spec: `get_positions_prices` is inherited from the
external `bbstrader` base class.  Spec section 4.1 step 2: "Compute currently
open long/short entry prices for `s` tagged to this strategy" -- the entry
prices of the open positions with the given symbol, owning strategy id and
position type. -/
def get_positions_prices (positions : List Position) (symbol : String)
    (id ptype : Nat) : List ℚ :=
  (positions.filter
    (fun p => p.symbol == symbol && p.magic == id && p.ptype == ptype)).map
    Position.price

/-- Modelled from the spec: `exit_positions` is inherited from the external
`bbstrader` base class.  Spec section 4.1 step 3: exit longs (type 0) when the
percentage move from the minimum long entry price to the current ask is at most
-expectedReturnThreshold/2; exit shorts (type 1) when the percentage move from
the maximum short entry price to the current price is at least
+expectedReturnThreshold/2; with no open position of the requested type there
is nothing to exit. -/
def exit_positions (ask : String → ℚ) (ptype : Nat) (prices : List ℚ)
    (symbol : String) (th : ℚ) : Bool :=
  match prices with
  | [] => false
  | _ =>
    if ptype == 0 then
      decide (calculate_pct_change (ask symbol) (listMin prices) ≤ -th / 2)
    else
      decide (calculate_pct_change (ask symbol) (listMax prices) ≥ th / 2)

/-- `SentimentTrading._ismax_postions` (strategy.py lines 91-99): counts the
open positions whose magic number is the strategy id and compares against
`self.max_positions`. -/
def ismax_postions (positions : List Position) (id max_positions : Nat) : Bool :=
  decide (max_positions ≤ (positions.filter (fun p => p.magic == id)).length)

/-- `SentimentTrading._get_mt5_equivalent` (strategy.py lines 101-111):
`list(self.tickers.keys())[list(self.tickers.values()).index(ticker)]` -- the
key of the first mapping entry whose value is the ticker; the Python `.index`
raises ValueError when the ticker is not a value of the mapping, modelled by
`none`. -/
def get_mt5_equivalent (tickers : List (String × String)) (ticker : String) :
    Option String :=
  (tickers.find? (fun kv => kv.2 == ticker)).map Prod.fst

/-- The exit-evaluation block of `_calculate_live_signals` (strategy.py lines
147-167): an `if`/`elif` on one `exit_signal` variable, appended when set.
EXIT_LONG when `exit_positions(0, buys, ...)` or the score is at most
`-threshold/2`; otherwise EXIT_SHORT when `exit_positions(1, sells, ...)` or
the score is at least `threshold`. -/
def exitSignalFor (st : SentimentTrading) (positions : List Position)
    (ask : String → ℚ) (symbol : String) (score : ℚ) : List TradeSignal :=
  if exit_positions ask 0 (get_positions_prices positions symbol st.ID 0) symbol st.ext_th
      || decide (score ≤ -st.threshold / 2) then
    [⟨st.ID, symbol, TradeAction.EXIT_LONG⟩]
  else if exit_positions ask 1 (get_positions_prices positions symbol st.ID 1) symbol st.ext_th
      || decide (score ≥ st.threshold) then
    [⟨st.ID, symbol, TradeAction.EXIT_SHORT⟩]
  else []

/-- The LONG-entry block of `_calculate_live_signals` (strategy.py lines
169-191).  With a qualifying score and free global capacity: a fresh LONG when
there is no open long; otherwise, when the open-long count lies in
`range(1, self.max_trades[symbol] + 1)`, a pyramiding LONG when the percentage
move from the cheapest open long to the current ask is at most `-ext_th/2`.
The `self.max_trades[symbol]` dict subscript raises KeyError for an unknown
symbol. -/
def longSignalsFor (st : SentimentTrading) (positions : List Position)
    (ask : String → ℚ) (symbol : String) (score : ℚ) :
    Except PyError (List TradeSignal) :=
  if decide (score ≥ st.threshold)
      && !(ismax_postions positions st.ID st.max_positions) then
    if (get_positions_prices positions symbol st.ID 0).isEmpty then
      Except.ok [⟨st.ID, symbol, TradeAction.LONG⟩]
    else
      match st.max_trades.lookup symbol with
      | none => Except.error PyError.keyError
      | some mt =>
        if decide (1 ≤ (get_positions_prices positions symbol st.ID 0).length)
            && decide ((get_positions_prices positions symbol st.ID 0).length ≤ mt) then
          if decide (calculate_pct_change (ask symbol)
              (listMin (get_positions_prices positions symbol st.ID 0))
              ≤ -st.ext_th / 2) then
            Except.ok [⟨st.ID, symbol, TradeAction.LONG⟩]
          else
            Except.ok []
        else
          Except.ok []
  else
    Except.ok []

/-- The SHORT-entry block of `_calculate_live_signals` (strategy.py lines
193-214).  With a qualifying score and free global capacity: a fresh SHORT when
there is no open short; otherwise the code evaluates
`len(sells) in range(1, self.max_trades + 1)` where `self.max_trades` is a
dict, so `self.max_trades + 1` raises TypeError before anything else in the
branch (the guarded body would additionally read an outer-scope
`current_price` that the loop may never have bound). -/
def shortSignalsFor (st : SentimentTrading) (positions : List Position)
    (symbol : String) (score : ℚ) : Except PyError (List TradeSignal) :=
  if decide (score ≤ -st.threshold / 2)
      && !(ismax_postions positions st.ID st.max_positions) then
    if (get_positions_prices positions symbol st.ID 1).isEmpty then
      Except.ok [⟨st.ID, symbol, TradeAction.SHORT⟩]
    else
      Except.error PyError.typeError
  else
    Except.ok []

/-- One iteration of the `for ticker, score in sentiments.items()` loop of
`_calculate_live_signals` (strategy.py lines 144-214): resolve the MT5 symbol
(ValueError when unmapped), build the exit signal, then the LONG-entry
signals, then the SHORT-entry signals; the signals of the iteration are
appended in that order.  A raised exception aborts the iteration (signals of
the same iteration computed before the raise are discarded with it, since the
exception propagates out of the whole loop). -/
def signalsForTicker (st : SentimentTrading) (positions : List Position)
    (ask : String → ℚ) (ticker : String) (score : ℚ) :
    Except PyError (List TradeSignal) :=
  match get_mt5_equivalent st.tickers ticker with
  | none => Except.error PyError.valueError
  | some symbol =>
    match longSignalsFor st positions ask symbol score with
    | Except.error e => Except.error e
    | Except.ok longs =>
      match shortSignalsFor st positions symbol score with
      | Except.error e => Except.error e
      | Except.ok shorts =>
        Except.ok (exitSignalFor st positions ask symbol score ++ longs ++ shorts)

/-- The whole `for` loop of `_calculate_live_signals`: signals accumulate over
the snapshot in iteration order; an exception raised in any iteration
propagates and discards the accumulated list. -/
def calcSignalsLoop (st : SentimentTrading) (positions : List Position)
    (ask : String → ℚ) : List (String × ℚ) → Except PyError (List TradeSignal)
  | [] => Except.ok []
  | (ticker, score) :: rest =>
    match signalsForTicker st positions ask ticker score with
    | Except.error e => Except.error e
    | Except.ok block =>
      match calcSignalsLoop st positions ask rest with
      | Except.error e => Except.error e
      | Except.ok more => Except.ok (block ++ more)

/-- `SentimentTrading._calculate_live_signals` (strategy.py lines 113-216).
The sentiment-source call is passed in as its outcome `fetch`: `Except.error`
models `get_sentiment_for_tickers` raising (caught by the `try`/`except`,
which logs and returns the empty signal list), `Except.ok` a returned
snapshot.  On success the snapshot is stored in `self._sentiments` before the
loop runs.  The returned pair is (signal list or propagated loop exception,
state of the strategy afterwards). -/
def calculate_live_signals (st : SentimentTrading) (positions : List Position)
    (ask : String → ℚ) (fetch : Except Unit (List (String × ℚ))) :
    Except PyError (List TradeSignal) × SentimentTrading :=
  if st.tickers.length = 0 then
    (Except.ok [], st)
  else
    match fetch with
    | Except.error _ => (Except.ok [], st)
    | Except.ok sentiments =>
      let st' := { st with sentiments := sentiments }
      (calcSignalsLoop st' positions ask sentiments, st')

/-- The `max_trades` configuration of `SentimentTrading.__init__` (strategy.py
lines 67-69): `_max_trades = kwargs.get("max_trades", self.max_positions //
len(self.tickers))`, then `self.max_trades = {s: _max_trades for s in
self.tickers.keys()}`.  Python evaluates the default argument eagerly, so an
empty mapping raises ZeroDivisionError even when an override is supplied. -/
def initMaxTrades (tickers : List (String × String)) (max_positions : Nat)
    (override : Option Nat) : Except PyError (List (String × Nat)) :=
  if tickers.length = 0 then
    Except.error PyError.zeroDivisionError
  else
    Except.ok (tickers.map (fun kv => (kv.1, override.getD (max_positions / tickers.length))))

/-- The per-symbol cap computed in `SentimentTradingApp.handle_submit`
(gui.py line 742): `max_trades = int(max_positions / len(symbols_list))`; for
nonnegative integers the float division followed by `int` truncation is floor
division. -/
def guiMaxTrades (max_positions symbolCount : Nat) : Nat :=
  max_positions / symbolCount

/-- The shared state of the confirmation bridge of `SentimentTradingApp`
(gui.py): `self.pending_prompt`, `self.prompt_response_value`, the
`threading.Event` `self.prompt_response_ready`, and the log area (the only
other state either handler touches). -/
structure BridgeState where
  pendingPrompt : Option String
  promptValue : Option String
  promptReady : Bool
  logLines : List String
deriving DecidableEq, Repr

/-- Python truthiness of the `pending_prompt` attribute as used by
`if self.pending_prompt:` -- `None` and the empty string are falsy. -/
def truthyPrompt : Option String → Bool
  | none => false
  | some p => p != ""

/-- `SentimentTradingApp.handle_prompt_response` (gui.py lines 567-577),
as one atomic event (it runs as a single Tk callback on the GUI thread): log
the user input; when a prompt is pending, store the response value, set the
ready event and clear the pending prompt; otherwise change nothing else.  The
entry-widget read/clear is abstracted into the `userInput` argument. -/
def handle_prompt_response (userInput : String) (s : BridgeState) : BridgeState :=
  let s1 := { s with logLines := s.logLines ++ [">>> User input: " ++ userInput] }
  if truthyPrompt s1.pendingPrompt then
    { s1 with promptValue := some userInput, promptReady := true,
              pendingPrompt := none }
  else
    s1

/-- Program counter of one thread executing `gui_safe_prompt` (gui.py lines
555-565); the labels are its statements in order:
`atSetPending`: `self.pending_prompt = prompt`;
`atClearValue`: `self.prompt_response_value = None`;
`atClearReady`: `self.prompt_response_ready.clear()`;
`atLog`: `self.root.after(0, self.log(prompt))` (which calls `log` directly);
`atWait`: `self.prompt_response_ready.wait()` followed, once the event is set,
by reading `self.prompt_response_value` as the return value. -/
inductive ReqPc
  | atSetPending
  | atClearValue
  | atClearReady
  | atLog
  | atWait
  | finished
deriving DecidableEq, Repr

/-- One execution context (thread) running `gui_safe_prompt prompt`; `result`
is the value the call returns once `finished`. -/
structure ReqThread where
  pc : ReqPc
  prompt : String
  result : Option String
deriving DecidableEq, Repr

/-- One atomic step of a thread inside `gui_safe_prompt`: each Python
statement of the function is one step; `gui_safe_prompt` takes no lock, so
every statement acts directly on the shared `BridgeState`.  A step at `atWait`
with the event unset leaves everything unchanged (the thread stays blocked). -/
def reqStep (s : BridgeState) (t : ReqThread) : BridgeState × ReqThread :=
  match t.pc with
  | ReqPc.atSetPending =>
    ({ s with pendingPrompt := some t.prompt }, { t with pc := ReqPc.atClearValue })
  | ReqPc.atClearValue =>
    ({ s with promptValue := none }, { t with pc := ReqPc.atClearReady })
  | ReqPc.atClearReady =>
    ({ s with promptReady := false }, { t with pc := ReqPc.atLog })
  | ReqPc.atLog =>
    ({ s with logLines := s.logLines ++ [t.prompt] }, { t with pc := ReqPc.atWait })
  | ReqPc.atWait =>
    if s.promptReady then
      (s, { t with pc := ReqPc.finished, result := s.promptValue })
    else
      (s, t)
  | ReqPc.finished => (s, t)

/-- A configuration of the bridge with two concurrent `gui_safe_prompt`
callers. -/
structure BridgeConfig where
  state : BridgeState
  t1 : ReqThread
  t2 : ReqThread
deriving DecidableEq, Repr

/-- A scheduling event: run one step of the first requester, of the second
requester, or run the responder callback `handle_prompt_response v`. -/
inductive SchedEvent
  | run1
  | run2
  | respond (v : String)
deriving DecidableEq, Repr

/-- Apply one scheduling event to a bridge configuration. -/
def schedStep (c : BridgeConfig) : SchedEvent → BridgeConfig
  | SchedEvent.run1 =>
    let p := reqStep c.state c.t1
    { c with state := p.1, t1 := p.2 }
  | SchedEvent.run2 =>
    let p := reqStep c.state c.t2
    { c with state := p.1, t2 := p.2 }
  | SchedEvent.respond v => { c with state := handle_prompt_response v c.state }

/-- Run a finite interleaving of the two requesters and the responder. -/
def runSched (c : BridgeConfig) : List SchedEvent → BridgeConfig
  | [] => c
  | e :: es => runSched (schedStep c e) es

/-- State of the snapshot publisher (`SentimentTradingApp.update_charts`):
the last published snapshot `self._last_sentiments`, the chart canvas content
(the plotted ticker/score bars, most recent first), and a counter of how many
times the chart was rebuilt (each rebuild destroys and recreates the canvas
widget). -/
structure ChartState where
  lastSentiments : List (String × ℚ)
  chartCanvas : Option (List (String × ℚ))
  redrawCount : Nat
deriving DecidableEq

/-- Python dict value equality (`sentiment_dict == self._last_sentiments`) on
association lists with duplicate-free keys: same keys, each bound to the same
value. -/
def dictBeq (a b : List (String × ℚ)) : Bool :=
  a.all (fun kv => b.lookup kv.1 == some kv.2)
    && b.all (fun kv => a.lookup kv.1 == some kv.2)

/-- Insert one entry into a list sorted by score in decreasing order
(the `sorted(..., key=lambda item: item[1], reverse=True)` of
`update_charts`). -/
def insertByScore (x : String × ℚ) : List (String × ℚ) → List (String × ℚ)
  | [] => [x]
  | y :: ys => if decide (x.2 ≥ y.2) then x :: y :: ys else y :: insertByScore x ys

/-- Sort a snapshot by score in decreasing order. -/
def sortByScoreDesc (l : List (String × ℚ)) : List (String × ℚ) :=
  l.foldr insertByScore []

/-- `SentimentTradingApp.update_charts` (gui.py lines 824-861): when the new
snapshot equals the last published one by value, return with no change at all;
otherwise store it, filter to scores of magnitude at least `threshold / 2`,
sort by score in decreasing order, and rebuild the chart (one more redraw).
The `winfo_exists` guard and matplotlib rendering are outside the model. -/
def update_charts (threshold : ℚ) (snap : List (String × ℚ)) (st : ChartState) :
    ChartState :=
  if dictBeq snap st.lastSentiments then
    st
  else
    { lastSentiments := snap
      chartCanvas :=
        some (sortByScoreDesc (snap.filter (fun kv => decide (|kv.2| ≥ threshold / 2))))
      redrawCount := st.redrawCount + 1 }

/-! Structure of the signal loop: decomposition, membership, and the fact that
all signals of one iteration carry that iteration's resolved MT5 symbol. -/

/-- A successful loop iteration decomposes into its three blocks (exit, long
entries, short entries) under a successfully resolved symbol. -/
theorem signalsForTicker_ok (st : SentimentTrading) (positions : List Position)
    (ask : String → ℚ) (ticker : String) (score : ℚ) (b : List TradeSignal)
    (h : signalsForTicker st positions ask ticker score = Except.ok b) :
    ∃ symbol, get_mt5_equivalent st.tickers ticker = some symbol ∧
      ∃ longs shorts,
        longSignalsFor st positions ask symbol score = Except.ok longs ∧
        shortSignalsFor st positions symbol score = Except.ok shorts ∧
        b = exitSignalFor st positions ask symbol score ++ longs ++ shorts := by
  unfold signalsForTicker at h
  split at h
  · exact Except.noConfusion h
  · rename_i symbol hm
    split at h
    · exact Except.noConfusion h
    · rename_i longs hl
      split at h
      · exact Except.noConfusion h
      · rename_i shorts hs
        injection h with h
        exact ⟨symbol, hm, longs, shorts, hl, hs, h.symm⟩

/-- A successful loop run over a nonempty snapshot decomposes into the head
iteration's block followed by the rest of the run. -/
theorem calcSignalsLoop_ok_cons (st : SentimentTrading) (positions : List Position)
    (ask : String → ℚ) (t : String) (v : ℚ) (rest : List (String × ℚ))
    (sigs : List TradeSignal)
    (h : calcSignalsLoop st positions ask ((t, v) :: rest) = Except.ok sigs) :
    ∃ b more, signalsForTicker st positions ask t v = Except.ok b ∧
      calcSignalsLoop st positions ask rest = Except.ok more ∧ sigs = b ++ more := by
  unfold calcSignalsLoop at h
  split at h
  · exact Except.noConfusion h
  · rename_i b hb
    split at h
    · exact Except.noConfusion h
    · rename_i more hr
      injection h with h
      exact ⟨b, more, hb, hr, h.symm⟩

/-- Every signal of a successful loop run comes from the block of some
snapshot entry. -/
theorem calcSignalsLoop_mem (st : SentimentTrading) (positions : List Position)
    (ask : String → ℚ) :
    ∀ (sentiments : List (String × ℚ)) (sigs : List TradeSignal),
      calcSignalsLoop st positions ask sentiments = Except.ok sigs →
      ∀ g ∈ sigs, ∃ t v b, (t, v) ∈ sentiments ∧
        signalsForTicker st positions ask t v = Except.ok b ∧ g ∈ b := by
  intro sents
  induction sents with
  | nil =>
    intro sigs h g hg
    unfold calcSignalsLoop at h
    injection h with h
    subst h
    simp at hg
  | cons p rest ih =>
    intro sigs h g hg
    obtain ⟨t, v⟩ := p
    obtain ⟨b, more, hb, hmore, rfl⟩ :=
      calcSignalsLoop_ok_cons st positions ask t v rest sigs h
    rcases List.mem_append.mp hg with hgb | hgm
    · exact ⟨t, v, b, List.mem_cons_self _ _, hb, hgb⟩
    · obtain ⟨t2, v2, b2, hmem, hb2, hg2⟩ := ih more hmore g hgm
      exact ⟨t2, v2, b2, List.mem_cons_of_mem _ hmem, hb2, hg2⟩

/-- In a successful loop run every snapshot entry's own iteration succeeded. -/
theorem calcSignalsLoop_block_ok (st : SentimentTrading) (positions : List Position)
    (ask : String → ℚ) :
    ∀ (sentiments : List (String × ℚ)) (sigs : List TradeSignal) (t : String) (v : ℚ),
      calcSignalsLoop st positions ask sentiments = Except.ok sigs →
      (t, v) ∈ sentiments →
      ∃ b, signalsForTicker st positions ask t v = Except.ok b := by
  intro sents
  induction sents with
  | nil => intro sigs t v _ hmem; simp at hmem
  | cons p rest ih =>
    intro sigs t v h hmem
    obtain ⟨tp, vp⟩ := p
    obtain ⟨b, more, hb, hmore, rfl⟩ :=
      calcSignalsLoop_ok_cons st positions ask tp vp rest sigs h
    rcases List.mem_cons.mp hmem with heq | hmem2
    · injection heq with h1 h2
      subst h1; subst h2
      exact ⟨b, hb⟩
    · exact ih more t v hmore hmem2

/-- With duplicate-free mapping keys (a Python dict), two tickers resolving to
the same MT5 symbol are the same ticker. -/
theorem get_mt5_equivalent_inj (tickers : List (String × String))
    (hk : (tickers.map Prod.fst).Nodup) (t1 t2 s : String)
    (h1 : get_mt5_equivalent tickers t1 = some s)
    (h2 : get_mt5_equivalent tickers t2 = some s) : t1 = t2 := by
  unfold get_mt5_equivalent at h1 h2
  cases hf1 : tickers.find? (fun kv => kv.2 == t1) with
  | none => rw [hf1] at h1; exact Option.noConfusion h1
  | some kv1 =>
    rw [hf1] at h1
    cases hf2 : tickers.find? (fun kv => kv.2 == t2) with
    | none => rw [hf2] at h2; exact Option.noConfusion h2
    | some kv2 =>
      rw [hf2] at h2
      have m1 := List.mem_of_find?_eq_some hf1
      have m2 := List.mem_of_find?_eq_some hf2
      have e1 : kv1.2 = t1 := by simpa using List.find?_some hf1
      have e2 : kv2.2 = t2 := by simpa using List.find?_some hf2
      have k1 : kv1.1 = s := by simpa using h1
      have k2 : kv2.1 = s := by simpa using h2
      have hkv : kv1 = kv2 := List.inj_on_of_nodup_map hk m1 m2 (by rw [k1, k2])
      rw [← e1, ← e2, hkv]

/-- Helper for extracting the resolved symbol of a successful iteration. -/
theorem signalsForTicker_ok_mapped (st : SentimentTrading) (positions : List Position)
    (ask : String → ℚ) (ticker : String) (score : ℚ) (b : List TradeSignal)
    (h : signalsForTicker st positions ask ticker score = Except.ok b) :
    ∃ symbol, get_mt5_equivalent st.tickers ticker = some symbol := by
  obtain ⟨symbol, hm, _⟩ := signalsForTicker_ok st positions ask ticker score b h
  exact ⟨symbol, hm⟩

/-- Every signal of a successful LONG-entry block is the fresh/pyramiding LONG
signal for the resolved symbol. -/
theorem longSignalsFor_mem (st : SentimentTrading) (positions : List Position)
    (ask : String → ℚ) (symbol : String) (score : ℚ) (l : List TradeSignal)
    (h : longSignalsFor st positions ask symbol score = Except.ok l) :
    ∀ g ∈ l, g = ⟨st.ID, symbol, TradeAction.LONG⟩ := by
  unfold longSignalsFor at h
  split at h
  · split at h
    · injection h with h; subst h; intro g hg; simpa using hg
    · split at h
      · exact Except.noConfusion h
      · split at h
        · split at h
          · injection h with h; subst h; intro g hg; simpa using hg
          · injection h with h; subst h; intro g hg; simp at hg
        · injection h with h; subst h; intro g hg; simp at hg
  · injection h with h; subst h; intro g hg; simp at hg

/-- Every signal of a successful SHORT-entry block is the fresh SHORT signal
for the resolved symbol. -/
theorem shortSignalsFor_mem (st : SentimentTrading) (positions : List Position)
    (symbol : String) (score : ℚ) (l : List TradeSignal)
    (h : shortSignalsFor st positions symbol score = Except.ok l) :
    ∀ g ∈ l, g = ⟨st.ID, symbol, TradeAction.SHORT⟩ := by
  unfold shortSignalsFor at h
  split at h
  · split at h
    · injection h with h; subst h; intro g hg; simpa using hg
    · exact Except.noConfusion h
  · injection h with h; subst h; intro g hg; simp at hg

/-- The exit block is empty, one EXIT_LONG, or one EXIT_SHORT. -/
theorem exitSignalFor_cases (st : SentimentTrading) (positions : List Position)
    (ask : String → ℚ) (symbol : String) (score : ℚ) :
    exitSignalFor st positions ask symbol score = [] ∨
    exitSignalFor st positions ask symbol score
      = [⟨st.ID, symbol, TradeAction.EXIT_LONG⟩] ∨
    exitSignalFor st positions ask symbol score
      = [⟨st.ID, symbol, TradeAction.EXIT_SHORT⟩] := by
  unfold exitSignalFor
  split
  · exact Or.inr (Or.inl rfl)
  · split
    · exact Or.inr (Or.inr rfl)
    · exact Or.inl rfl

/-- All signals of one successful iteration carry the iteration's resolved
MT5 symbol. -/
theorem signalsForTicker_ok_symbol (st : SentimentTrading) (positions : List Position)
    (ask : String → ℚ) (ticker : String) (score : ℚ) (b : List TradeSignal)
    (symbol : String)
    (hm : get_mt5_equivalent st.tickers ticker = some symbol)
    (h : signalsForTicker st positions ask ticker score = Except.ok b) :
    ∀ g ∈ b, g.symbol = symbol := by
  obtain ⟨sym0, hm0, longs, shorts, hl, hs, rfl⟩ :=
    signalsForTicker_ok st positions ask ticker score b h
  rw [hm] at hm0
  injection hm0 with hm0
  subst hm0
  intro g hg
  rcases List.mem_append.mp hg with hg1 | hgs
  · rcases List.mem_append.mp hg1 with hge | hgl
    · rcases exitSignalFor_cases st positions ask symbol score with hc | hc | hc <;>
        rw [hc] at hge <;> simp at hge <;> simp [hge]
    · rw [longSignalsFor_mem st positions ask symbol score longs hl g hgl]
  · rw [shortSignalsFor_mem st positions symbol score shorts hs g hgs]

/-- The master filtering lemma: in a successful cycle over a snapshot with
duplicate-free keys (and a duplicate-free symbol mapping), the signals whose
symbol is a given iteration's resolved symbol are exactly that iteration's
block, in block order. -/
theorem calcSignalsLoop_filter (st : SentimentTrading) (positions : List Position)
    (ask : String → ℚ) (hk : (st.tickers.map Prod.fst).Nodup) :
    ∀ (sentiments : List (String × ℚ)),
      (sentiments.map Prod.fst).Nodup →
      ∀ (sigs block : List TradeSignal) (ticker : String) (score : ℚ) (symbol : String),
        (ticker, score) ∈ sentiments →
        get_mt5_equivalent st.tickers ticker = some symbol →
        signalsForTicker st positions ask ticker score = Except.ok block →
        calcSignalsLoop st positions ask sentiments = Except.ok sigs →
        sigs.filter (fun g => g.symbol == symbol) = block := by
  intro sents
  induction sents with
  | nil => intro _ sigs block ticker score symbol hmem _ _ _; simp at hmem
  | cons p rest ih =>
    intro hnd sigs block ticker score symbol hmem hmap hblock hok
    obtain ⟨tp, vp⟩ := p
    obtain ⟨b, more, hb, hmore, rfl⟩ :=
      calcSignalsLoop_ok_cons st positions ask tp vp rest sigs hok
    rw [List.map_cons, List.nodup_cons] at hnd
    obtain ⟨hnd1, hnd2⟩ := hnd
    rw [List.filter_append]
    rcases List.mem_cons.mp hmem with heq | hmem2
    · have h1 : ticker = tp := congrArg Prod.fst heq
      have h2 : score = vp := congrArg Prod.snd heq
      subst h1
      subst h2
      rw [hb] at hblock
      injection hblock with hblock
      subst hblock
      have hbself : b.filter (fun g => g.symbol == symbol) = b :=
        List.filter_eq_self.mpr (fun g hg => by
          simp [signalsForTicker_ok_symbol st positions ask ticker score b symbol hmap hb g hg])
      have hmnil : more.filter (fun g => g.symbol == symbol) = [] := by
        rw [List.filter_eq_nil_iff]
        intro g hg hgsym
        obtain ⟨t2, v2, b2, hmem2, hb2, hg2⟩ :=
          calcSignalsLoop_mem st positions ask rest more hmore g hg
        obtain ⟨sym2, hm2⟩ :=
          signalsForTicker_ok_mapped st positions ask t2 v2 b2 hb2
        have hgs2 : g.symbol = sym2 :=
          signalsForTicker_ok_symbol st positions ask t2 v2 b2 sym2 hm2 hb2 g hg2
        have hss : sym2 = symbol := by
          rw [← hgs2]
          simpa using hgsym
        rw [hss] at hm2
        have ht2 : t2 = ticker :=
          get_mt5_equivalent_inj st.tickers hk t2 ticker symbol hm2 hmap
        exact hnd1 (ht2 ▸ List.mem_map.mpr ⟨(t2, v2), hmem2, rfl⟩)
      rw [hbself, hmnil, List.append_nil]
    · have hbnil : b.filter (fun g => g.symbol == symbol) = [] := by
        rw [List.filter_eq_nil_iff]
        intro g hg hgsym
        obtain ⟨symp, hmp⟩ :=
          signalsForTicker_ok_mapped st positions ask tp vp b hb
        have hgsp : g.symbol = symp :=
          signalsForTicker_ok_symbol st positions ask tp vp b symp hmp hb g hg
        have hss : symp = symbol := by
          rw [← hgsp]
          simpa using hgsym
        rw [hss] at hmp
        have htp : tp = ticker :=
          get_mt5_equivalent_inj st.tickers hk tp ticker symbol hmp hmap
        have htmem : ticker ∈ rest.map Prod.fst :=
          List.mem_map.mpr ⟨(ticker, score), hmem2, rfl⟩
        exact hnd1 (htp ▸ htmem)
      rw [hbnil, List.nil_append]
      exact ih hnd2 more block ticker score symbol hmem2 hmap hblock hmore

/-! Concrete instances used by counterexamples and witnesses. -/

/-- The spec's scenario configuration: threshold 0.2, two global positions,
symbol mapping AAA to AAPL (expected return 5.0, per-symbol cap 2 from the
initialisation, strategy id 7950). -/
def scenarioSt : SentimentTrading :=
  { tickers := [("AAA", "AAPL")], threshold := 1/5, ext_th := 5, max_positions := 2,
    max_trades := [("AAA", 2)], sentiments := [], ID := 7950 }

/-- A configuration with capacity to spare (global cap 10, per-symbol cap 5). -/
def roomySt : SentimentTrading :=
  { tickers := [("AAA", "AAPL")], threshold := 1/5, ext_th := 5, max_positions := 10,
    max_trades := [("AAA", 5)], sentiments := [], ID := 7950 }

/-- A configuration with an empty tradable symbol set. -/
def emptySt : SentimentTrading :=
  { tickers := [], threshold := 1/5, ext_th := 5, max_positions := 2,
    max_trades := [], sentiments := [("AAPL", 1)], ID := 7950 }

/-- A two-symbol mapping, for the per-symbol cap derivation. -/
def twoTickers : List (String × String) := [("AAA", "AAPL"), ("BBB", "MSFT")]

/-! Theorems for the claims. -/

/-- C5: when the sentiment-source call raises, `_calculate_live_signals`
catches the exception, returns the empty signal list without raising, and
leaves the strategy state (in particular `self._sentiments`) unchanged; and
with an empty tradable symbol set it returns the empty list immediately, with
a result independent of the sentiment source's outcome. -/
theorem C5_cycle_error_handling (st : SentimentTrading)
    (positions : List Position) (ask : String → ℚ) :
    calculate_live_signals st positions ask (Except.error ()) = (Except.ok [], st) ∧
    (st.tickers = [] → ∀ fetch,
      calculate_live_signals st positions ask fetch = (Except.ok [], st)) := by
  constructor
  · unfold calculate_live_signals
    split <;> rfl
  · intro h fetch
    simp [calculate_live_signals, h]

/-- Witness for C5 at concrete inputs: a failing fetch with a nonempty symbol
set, and a successful fetch with an empty symbol set. -/
theorem C5_witness :
    calculate_live_signals scenarioSt [] (fun _ => 0) (Except.error ())
      = (Except.ok [], scenarioSt) ∧
    calculate_live_signals emptySt [] (fun _ => 0) (Except.ok [("AAPL", 1)])
      = (Except.ok [], emptySt) :=
  ⟨(C5_cycle_error_handling scenarioSt [] (fun _ => 0)).1,
   (C5_cycle_error_handling emptySt [] (fun _ => 0)).2 rfl (Except.ok [("AAPL", 1)])⟩

/-- Counterexample for C6: with maxGlobalPositions 1 and 2 symbols the code
assigns every symbol the cap `1 // 2 = 0`, whereas the claim's
`max 1 (floor(1/2)) = 1`; there is no minimum-1 clamp. -/
theorem C6_counterexample :
    initMaxTrades twoTickers 1 none = Except.ok [("AAA", 0), ("BBB", 0)] ∧
    max 1 ((1 : Nat) / 2) = 1 ∧
    ((0 : Nat) = max 1 ((1 : Nat) / 2) → False) := by decide

/-- In a constant-valued association list every present key looks up to the
constant. -/
theorem lookup_map_const {β : Type} (c : β) (s : String) :
    ∀ l : List (String × String), s ∈ l.map Prod.fst →
      (l.map (fun kv => (kv.1, c))).lookup s = some c := by
  intro l
  induction l with
  | nil => intro h; simp at h
  | cons x xs ih =>
    intro h
    simp only [List.map_cons, List.mem_cons] at h
    simp only [List.map_cons, List.lookup]
    by_cases hx : s == x.1
    · simp [hx]
    · have hmem : s ∈ xs.map Prod.fst := by
        rcases h with h | h
        · exact absurd (show (s == x.1) = true by simp [h]) hx
        · exact h
      simp only [hx]
      exact ih hmem

/-- C6 (amended): with `n ≥ 1` symbols and no max_trades override, every
symbol's per-symbol cap equals `floor(maxGlobalPositions / n)` with no lower
clamp (it is 0 whenever maxGlobalPositions < n). -/
theorem C6_amended (tickers : List (String × String)) (m : Nat) (s : String)
    (hn : tickers ≠ []) (hs : s ∈ tickers.map Prod.fst) :
    ∃ caps, initMaxTrades tickers m none = Except.ok caps ∧
      caps.lookup s = some (m / tickers.length) := by
  refine ⟨tickers.map (fun kv => (kv.1, m / tickers.length)), ?_, ?_⟩
  · unfold initMaxTrades
    rw [if_neg (by simpa using hn)]
    rfl
  · exact lookup_map_const (m / tickers.length) s tickers hs

/-- Witness for C6 (amended) at a concrete input: 5 positions over 2 symbols
give every symbol the cap 2. -/
theorem C6_amended_witness :
    ∃ caps, initMaxTrades twoTickers 5 none = Except.ok caps ∧
      caps.lookup "AAA" = some (5 / twoTickers.length) :=
  C6_amended twoTickers 5 "AAA" (by decide) (by decide)

/-- The long-exit arm of `exit_positions` fires on a nonempty price list
whenever the percentage move from the cheapest entry to the current ask is at
most `-th/2`. -/
theorem exit_positions_long_true (ask : String → ℚ) (prices : List ℚ)
    (symbol : String) (th : ℚ) (hne : prices ≠ [])
    (hc : calculate_pct_change (ask symbol) (listMin prices) ≤ -th / 2) :
    exit_positions ask 0 prices symbol th = true := by
  unfold exit_positions
  cases prices with
  | nil => exact absurd rfl hne
  | cons x xs => simp [hc]

/-- The exit block emits exactly one EXIT_LONG whenever the symbol has open
longs and the long-exit condition (adverse move from the cheapest entry, or a
score at most `-threshold/2`) holds. -/
theorem exitSignalFor_exit_long (st : SentimentTrading) (positions : List Position)
    (ask : String → ℚ) (symbol : String) (score : ℚ)
    (hbuys : get_positions_prices positions symbol st.ID 0 ≠ [])
    (hcond : calculate_pct_change (ask symbol)
        (listMin (get_positions_prices positions symbol st.ID 0)) ≤ -st.ext_th / 2
      ∨ score ≤ -st.threshold / 2) :
    exitSignalFor st positions ask symbol score
      = [⟨st.ID, symbol, TradeAction.EXIT_LONG⟩] := by
  unfold exitSignalFor
  have hc : (exit_positions ask 0 (get_positions_prices positions symbol st.ID 0)
      symbol st.ext_th || decide (score ≤ -st.threshold / 2)) = true := by
    rcases hcond with hc | hc
    · rw [exit_positions_long_true ask _ symbol st.ext_th hbuys hc]
      simp
    · simp [hc]
  rw [hc]
  simp

/-- A successful iteration whose symbol has open longs and satisfies the
long-exit condition starts with the EXIT_LONG signal. -/
theorem signalsForTicker_exit_long_head (st : SentimentTrading)
    (positions : List Position) (ask : String → ℚ) (ticker : String) (score : ℚ)
    (symbol : String) (block : List TradeSignal)
    (hmap : get_mt5_equivalent st.tickers ticker = some symbol)
    (hbuys : get_positions_prices positions symbol st.ID 0 ≠ [])
    (hcond : calculate_pct_change (ask symbol)
        (listMin (get_positions_prices positions symbol st.ID 0)) ≤ -st.ext_th / 2
      ∨ score ≤ -st.threshold / 2)
    (hblock : signalsForTicker st positions ask ticker score = Except.ok block) :
    block.head? = some ⟨st.ID, symbol, TradeAction.EXIT_LONG⟩ := by
  obtain ⟨sym0, hm0, longs, shorts, hl, hs, rfl⟩ :=
    signalsForTicker_ok st positions ask ticker score block hblock
  rw [hmap] at hm0
  injection hm0 with hm0
  subst hm0
  rw [exitSignalFor_exit_long st positions ask symbol score hbuys hcond]
  rfl

/-- C2 (amended): in every cycle that completes without raising, every symbol
with an open long whose exit condition holds -- percentage move from the
minimum long entry price p to the current ask p' with (p'-p)/p*100 at most
-expectedReturnThreshold/2, or score at most -sentimentThreshold/2 -- gets an
EXIT_LONG signal, with no capacity hypothesis (the exit block never consults
the exposure gate), and that EXIT_LONG is the first signal for that symbol in
the returned list, so it precedes any entry signal for the symbol.  (The
unamended claim fails only because a cycle can instead raise TypeError in the
short-entry branch and return no list at all; see the counterexample.) -/
theorem C2_amended (st : SentimentTrading) (positions : List Position)
    (ask : String → ℚ) (sentiments : List (String × ℚ)) (sigs : List TradeSignal)
    (ticker symbol : String) (score : ℚ)
    (hk : (st.tickers.map Prod.fst).Nodup)
    (hsn : (sentiments.map Prod.fst).Nodup)
    (hmem : (ticker, score) ∈ sentiments)
    (hmap : get_mt5_equivalent st.tickers ticker = some symbol)
    (hbuys : get_positions_prices positions symbol st.ID 0 ≠ [])
    (hcond : calculate_pct_change (ask symbol)
        (listMin (get_positions_prices positions symbol st.ID 0)) ≤ -st.ext_th / 2
      ∨ score ≤ -st.threshold / 2)
    (hok : calcSignalsLoop st positions ask sentiments = Except.ok sigs) :
    (sigs.filter (fun g => g.symbol == symbol)).head?
      = some ⟨st.ID, symbol, TradeAction.EXIT_LONG⟩ := by
  obtain ⟨block, hblock⟩ :=
    calcSignalsLoop_block_ok st positions ask sentiments sigs ticker score hok hmem
  rw [calcSignalsLoop_filter st positions ask hk sentiments hsn sigs block
    ticker score symbol hmem hmap hblock hok]
  exact signalsForTicker_exit_long_head st positions ask ticker score symbol block
    hmap hbuys hcond hblock

/-- A single open long position on AAA, entered at 100. -/
def longPos : List Position := [⟨"AAA", 7950, 0, 100⟩]

/-- Witness for C2 (amended): entry at 100, ask 94 (a -6 percent move against
the -2.5 percent exit threshold): the cycle returns exactly the EXIT_LONG, so
the first AAA signal is the EXIT_LONG. -/
theorem C2_amended_witness :
    (([⟨7950, "AAA", TradeAction.EXIT_LONG⟩] : List TradeSignal).filter
        (fun g => g.symbol == "AAA")).head?
      = some ⟨7950, "AAA", TradeAction.EXIT_LONG⟩ :=
  C2_amended scenarioSt longPos (fun _ => 94) [("AAPL", 0)]
    [⟨7950, "AAA", TradeAction.EXIT_LONG⟩] "AAPL" "AAA" 0
    (by decide) (by decide) (List.mem_cons_self _ _) (by decide) (by decide)
    (Or.inl (by norm_num [scenarioSt, longPos, get_positions_prices, listMin,
      calculate_pct_change]))
    (by norm_num [scenarioSt, longPos, calcSignalsLoop, signalsForTicker,
      get_mt5_equivalent, longSignalsFor, shortSignalsFor, exitSignalFor,
      exit_positions, get_positions_prices, ismax_postions, calculate_pct_change,
      listMin, listMax, List.find?, List.lookup])

/-- Both a long and a short open on AAA, entered at 100. -/
def mixedPos : List Position := [⟨"AAA", 7950, 0, 100⟩, ⟨"AAA", 7950, 1, 100⟩]

/-- Counterexample for C2: with an open long at 100 (exit condition satisfied
through the score, -0.3 at most -0.1), an open short, and capacity available,
the cycle raises TypeError in the short-entry branch: no signal list is
returned at all, so no EXIT_LONG is emitted, contradicting the claim that the
exit is emitted for every state of the position count. -/
theorem C2_counterexample :
    ((-3/10 : ℚ) ≤ -roomySt.threshold / 2) ∧
    get_positions_prices mixedPos "AAA" roomySt.ID 0 ≠ [] ∧
    ismax_postions mixedPos roomySt.ID roomySt.max_positions = false ∧
    calcSignalsLoop roomySt mixedPos (fun _ => 100) [("AAPL", -3/10)]
      = Except.error PyError.typeError := by
  refine ⟨by norm_num [roomySt], by decide, by decide, ?_⟩
  norm_num [roomySt, mixedPos, calcSignalsLoop, signalsForTicker,
    get_mt5_equivalent, longSignalsFor, shortSignalsFor, exitSignalFor,
    exit_positions, get_positions_prices, ismax_postions, calculate_pct_change,
    listMin, listMax, List.find?, List.lookup]

/-- A single open short position on AAA, entered at 100. -/
def shortPos : List Position := [⟨"AAA", 7950, 1, 100⟩]

/-- C3 (code bug): a symbol with one open short (within the per-symbol cap of
5), score -0.3 at most -threshold/2 = -0.1, and free capacity: instead of
completing the mirrored pyramiding evaluation, the entry evaluation raises
TypeError, because `len(sells) in range(1, self.max_trades + 1)` adds the
integer 1 to the dict `self.max_trades`; the whole cycle aborts. -/
theorem C3_short_pyramiding_raises :
    get_positions_prices shortPos "AAA" roomySt.ID 1 ≠ [] ∧
    ((-3/10 : ℚ) ≤ -roomySt.threshold / 2) ∧
    ismax_postions shortPos roomySt.ID roomySt.max_positions = false ∧
    calcSignalsLoop roomySt shortPos (fun _ => 100) [("AAPL", -3/10)]
      = Except.error PyError.typeError := by
  refine ⟨by decide, by norm_num [roomySt], by decide, ?_⟩
  norm_num [roomySt, shortPos, calcSignalsLoop, signalsForTicker,
    get_mt5_equivalent, longSignalsFor, shortSignalsFor, exitSignalFor,
    exit_positions, get_positions_prices, ismax_postions, calculate_pct_change,
    listMin, listMax, List.find?, List.lookup]

/-- Counterexample for C4: a snapshot containing the unmapped ticker MSFT
makes the whole cycle abort with ValueError -- the mapped AAPL entry that
follows is never processed and no signals are returned -- whereas the same
snapshot without MSFT yields AAPL's signals.  This contradicts the claim that
an unmapped ticker is skipped and the remaining tickers still produce their
signals. -/
theorem C4_counterexample :
    (calculate_live_signals scenarioSt [] (fun _ => 100)
      (Except.ok [("MSFT", 1/2), ("AAPL", 1/4)])).1
      = Except.error PyError.valueError ∧
    (calculate_live_signals scenarioSt [] (fun _ => 100)
      (Except.ok [("AAPL", 1/4)])).1
      = Except.ok [⟨7950, "AAA", TradeAction.EXIT_SHORT⟩,
          ⟨7950, "AAA", TradeAction.LONG⟩] := by
  have hms : ("AAPL" == "MSFT") = false := by decide
  constructor <;>
    norm_num [scenarioSt, calculate_live_signals, calcSignalsLoop,
      signalsForTicker, get_mt5_equivalent, longSignalsFor, shortSignalsFor,
      exitSignalFor, exit_positions, get_positions_prices, ismax_postions,
      calculate_pct_change, listMin, listMax, List.find?, List.lookup, hms]

/-- C4 (amended): a snapshot entry whose ticker has no broker symbol in the
mapping makes the whole signal loop raise (the ValueError of the `.index`
lookup propagates): the cycle aborts with an error and no signal list is
returned for any ticker. -/
theorem C4_amended (st : SentimentTrading) (positions : List Position)
    (ask : String → ℚ) (sentiments : List (String × ℚ)) (ticker : String)
    (score : ℚ) (hmem : (ticker, score) ∈ sentiments)
    (hmap : get_mt5_equivalent st.tickers ticker = none) :
    ∃ e, calcSignalsLoop st positions ask sentiments = Except.error e := by
  revert hmem
  induction sentiments with
  | nil => intro hmem; simp at hmem
  | cons p rest ih =>
    intro hmem
    obtain ⟨tp, vp⟩ := p
    rcases List.mem_cons.mp hmem with heq | hmem2
    · have h1 : ticker = tp := congrArg Prod.fst heq
      subst h1
      cases hb : signalsForTicker st positions ask ticker vp with
      | error e => exact ⟨e, by simp only [calcSignalsLoop, hb]⟩
      | ok b =>
        obtain ⟨sym0, hm0⟩ :=
          signalsForTicker_ok_mapped st positions ask ticker vp b hb
        rw [hmap] at hm0
        exact Option.noConfusion hm0
    · obtain ⟨e, he⟩ := ih hmem2
      cases hb : signalsForTicker st positions ask tp vp with
      | error e2 => exact ⟨e2, by simp only [calcSignalsLoop, hb]⟩
      | ok b => exact ⟨e, by simp only [calcSignalsLoop, hb, he]⟩

/-- Witness for C4 (amended): the unmapped ticker MSFT aborts the loop. -/
theorem C4_amended_witness :
    ∃ e, calcSignalsLoop scenarioSt [] (fun _ => 100) [("MSFT", 1/2)]
      = Except.error e :=
  C4_amended scenarioSt [] (fun _ => 100) [("MSFT", 1/2)] "MSFT" (1/2)
    (List.mem_cons_self _ _) (by decide)

/-- C1 (amended): for every symbol with score at least the (positive)
threshold, free global capacity and no open position of either side, a
successfully completing cycle emits exactly two signals for that symbol --
first an EXIT_SHORT (the exit-short branch fires on score at least threshold
alone, with no open shorts), then the ENTER_LONG -- and nothing else for it.
The unamended "exactly one ENTER_LONG and no other signal" is refuted by the
counterexample. -/
theorem C1_amended (st : SentimentTrading) (positions : List Position)
    (ask : String → ℚ) (sentiments : List (String × ℚ)) (sigs : List TradeSignal)
    (ticker symbol : String) (score : ℚ)
    (hk : (st.tickers.map Prod.fst).Nodup)
    (hsn : (sentiments.map Prod.fst).Nodup)
    (hmem : (ticker, score) ∈ sentiments)
    (hmap : get_mt5_equivalent st.tickers ticker = some symbol)
    (hth : 0 < st.threshold)
    (hscore : score ≥ st.threshold)
    (hbuys : get_positions_prices positions symbol st.ID 0 = [])
    (hsells : get_positions_prices positions symbol st.ID 1 = [])
    (hcap : ismax_postions positions st.ID st.max_positions = false)
    (hok : calcSignalsLoop st positions ask sentiments = Except.ok sigs) :
    sigs.filter (fun g => g.symbol == symbol)
      = [⟨st.ID, symbol, TradeAction.EXIT_SHORT⟩,
         ⟨st.ID, symbol, TradeAction.LONG⟩] := by
  have hnotneg : ¬ (score ≤ -st.threshold / 2) := by
    intro hle
    linarith
  have hblock : signalsForTicker st positions ask ticker score
      = Except.ok [⟨st.ID, symbol, TradeAction.EXIT_SHORT⟩,
          ⟨st.ID, symbol, TradeAction.LONG⟩] := by
    simp only [signalsForTicker, hmap]
    simp [longSignalsFor, shortSignalsFor, exitSignalFor, exit_positions,
      hbuys, hsells, hcap, hscore, hnotneg]
  rw [calcSignalsLoop_filter st positions ask hk sentiments hsn sigs _
    ticker score symbol hmem hmap hblock hok]

/-- Counterexample for C1: at the spec's own scenario (threshold 0.2, cap 2,
AAA mapped to AAPL, snapshot score 0.25, no open positions) the returned list
is [EXIT_SHORT(AAA), ENTER_LONG(AAA)], not [ENTER_LONG(AAA)]: the exit-short
branch fires on score at least threshold even with no open short. -/
theorem C1_counterexample :
    (calculate_live_signals scenarioSt [] (fun _ => 100)
      (Except.ok [("AAPL", 1/4)])).1
      = Except.ok [⟨7950, "AAA", TradeAction.EXIT_SHORT⟩,
          ⟨7950, "AAA", TradeAction.LONG⟩] ∧
    (calculate_live_signals scenarioSt [] (fun _ => 100)
      (Except.ok [("AAPL", 1/4)])).1
      ≠ Except.ok [⟨7950, "AAA", TradeAction.LONG⟩] := by
  have h : (calculate_live_signals scenarioSt [] (fun _ => 100)
      (Except.ok [("AAPL", 1/4)])).1
      = Except.ok [⟨7950, "AAA", TradeAction.EXIT_SHORT⟩,
          ⟨7950, "AAA", TradeAction.LONG⟩] := by
    norm_num [scenarioSt, calculate_live_signals, calcSignalsLoop,
      signalsForTicker, get_mt5_equivalent, longSignalsFor, shortSignalsFor,
      exitSignalFor, exit_positions, get_positions_prices, ismax_postions,
      calculate_pct_change, listMin, listMax, List.find?, List.lookup]
  refine ⟨h, ?_⟩
  rw [h]
  decide

/-- Witness for C1 (amended) at the spec scenario inputs. -/
theorem C1_amended_witness :
    (([⟨7950, "AAA", TradeAction.EXIT_SHORT⟩,
       ⟨7950, "AAA", TradeAction.LONG⟩] : List TradeSignal).filter
        (fun g => g.symbol == "AAA"))
      = [⟨7950, "AAA", TradeAction.EXIT_SHORT⟩,
         ⟨7950, "AAA", TradeAction.LONG⟩] :=
  C1_amended scenarioSt [] (fun _ => 100) [("AAPL", 1/4)]
    [⟨7950, "AAA", TradeAction.EXIT_SHORT⟩, ⟨7950, "AAA", TradeAction.LONG⟩]
    "AAPL" "AAA" (1/4)
    (by decide) (by decide) (List.mem_cons_self _ _) (by decide)
    (by norm_num [scenarioSt]) (by norm_num [scenarioSt]) (by decide) (by decide)
    (by decide)
    (by norm_num [scenarioSt, calcSignalsLoop, signalsForTicker,
      get_mt5_equivalent, longSignalsFor, shortSignalsFor, exitSignalFor,
      exit_positions, get_positions_prices, ismax_postions, calculate_pct_change,
      listMin, listMax, List.find?, List.lookup])

/-- A signal whose action is one of the two EXIT actions. -/
def isExitSignal (g : TradeSignal) : Bool :=
  g.action == TradeAction.EXIT_LONG || g.action == TradeAction.EXIT_SHORT

/-- C10: a successfully completing cycle emits at most one EXIT signal per
symbol, and never both an EXIT_LONG and an EXIT_SHORT for the same symbol (the
exit evaluation is one if/elif on a single exit-signal slot per iteration, and
each symbol is handled by at most one iteration). -/
theorem C10_at_most_one_exit_per_symbol (st : SentimentTrading)
    (positions : List Position) (ask : String → ℚ)
    (sentiments : List (String × ℚ)) (sigs : List TradeSignal)
    (hk : (st.tickers.map Prod.fst).Nodup)
    (hsn : (sentiments.map Prod.fst).Nodup)
    (hok : calcSignalsLoop st positions ask sentiments = Except.ok sigs)
    (symbol : String) :
    (sigs.filter (fun g => g.symbol == symbol && isExitSignal g)).length ≤ 1 ∧
    ¬((⟨st.ID, symbol, TradeAction.EXIT_LONG⟩ : TradeSignal) ∈ sigs ∧
      (⟨st.ID, symbol, TradeAction.EXIT_SHORT⟩ : TradeSignal) ∈ sigs) := by
  have hfilter : sigs.filter (fun g => g.symbol == symbol && isExitSignal g)
      = (sigs.filter (fun g => g.symbol == symbol)).filter isExitSignal := by
    rw [List.filter_filter]
    exact List.filter_congr (fun g _ => Bool.and_comm _ _)
  have hlen : (sigs.filter (fun g => g.symbol == symbol && isExitSignal g)).length ≤ 1 := by
    rw [hfilter]
    by_cases hex : ∃ t v, (t, v) ∈ sentiments ∧
      get_mt5_equivalent st.tickers t = some symbol
    · obtain ⟨t, v, hmem, hmap⟩ := hex
      obtain ⟨block, hblock⟩ :=
        calcSignalsLoop_block_ok st positions ask sentiments sigs t v hok hmem
      rw [calcSignalsLoop_filter st positions ask hk sentiments hsn sigs block
        t v symbol hmem hmap hblock hok]
      obtain ⟨sym0, hm0, longs, shorts, hl, hs2, rfl⟩ :=
        signalsForTicker_ok st positions ask t v block hblock
      rw [hmap] at hm0
      injection hm0 with hm0
      subst hm0
      rw [List.filter_append, List.filter_append]
      have hlongs : longs.filter isExitSignal = [] := by
        rw [List.filter_eq_nil_iff]
        intro g hg
        rw [longSignalsFor_mem st positions ask symbol v longs hl g hg]
        simp [isExitSignal]
      have hshorts : shorts.filter isExitSignal = [] := by
        rw [List.filter_eq_nil_iff]
        intro g hg
        rw [shortSignalsFor_mem st positions symbol v shorts hs2 g hg]
        simp [isExitSignal]
      rw [hlongs, hshorts, List.append_nil, List.append_nil]
      rcases exitSignalFor_cases st positions ask symbol v with hc | hc | hc <;>
        rw [hc] <;> simp [isExitSignal]
    · have hnil : sigs.filter (fun g => g.symbol == symbol) = [] := by
        rw [List.filter_eq_nil_iff]
        intro g hg hgsym
        obtain ⟨t, v, b, hmem, hb, hgb⟩ :=
          calcSignalsLoop_mem st positions ask sentiments sigs hok g hg
        obtain ⟨sym0, hm0⟩ := signalsForTicker_ok_mapped st positions ask t v b hb
        have hgs : g.symbol = sym0 :=
          signalsForTicker_ok_symbol st positions ask t v b sym0 hm0 hb g hgb
        have hss : sym0 = symbol := by
          rw [← hgs]
          simpa using hgsym
        rw [hss] at hm0
        exact hex ⟨t, v, hmem, hm0⟩
      rw [hnil]
      simp
  refine ⟨hlen, ?_⟩
  rintro ⟨hL, hS⟩
  have hLf : (⟨st.ID, symbol, TradeAction.EXIT_LONG⟩ : TradeSignal)
      ∈ sigs.filter (fun g => g.symbol == symbol && isExitSignal g) :=
    List.mem_filter.mpr ⟨hL, by simp [isExitSignal]⟩
  have hSf : (⟨st.ID, symbol, TradeAction.EXIT_SHORT⟩ : TradeSignal)
      ∈ sigs.filter (fun g => g.symbol == symbol && isExitSignal g) :=
    List.mem_filter.mpr ⟨hS, by simp [isExitSignal]⟩
  cases hsplit : sigs.filter (fun g => g.symbol == symbol && isExitSignal g) with
  | nil =>
    rw [hsplit] at hLf
    simp at hLf
  | cons x rest2 =>
    cases rest2 with
    | nil =>
      rw [hsplit] at hLf hSf
      have h1 := List.mem_singleton.mp hLf
      have h2 := List.mem_singleton.mp hSf
      rw [← h2] at h1
      exact absurd (congrArg TradeSignal.action h1) (by simp)
    | cons y rest3 =>
      rw [hsplit] at hlen
      simp at hlen

/-- Witness for C10 at the spec scenario inputs (symbol AAA). -/
theorem C10_witness :
    (([⟨7950, "AAA", TradeAction.EXIT_SHORT⟩,
       ⟨7950, "AAA", TradeAction.LONG⟩] : List TradeSignal).filter
        (fun g => g.symbol == "AAA" && isExitSignal g)).length ≤ 1 ∧
    ¬((⟨7950, "AAA", TradeAction.EXIT_LONG⟩ : TradeSignal)
        ∈ ([⟨7950, "AAA", TradeAction.EXIT_SHORT⟩,
            ⟨7950, "AAA", TradeAction.LONG⟩] : List TradeSignal) ∧
      (⟨7950, "AAA", TradeAction.EXIT_SHORT⟩ : TradeSignal)
        ∈ ([⟨7950, "AAA", TradeAction.EXIT_SHORT⟩,
            ⟨7950, "AAA", TradeAction.LONG⟩] : List TradeSignal)) :=
  C10_at_most_one_exit_per_symbol scenarioSt [] (fun _ => 100) [("AAPL", 1/4)]
    [⟨7950, "AAA", TradeAction.EXIT_SHORT⟩, ⟨7950, "AAA", TradeAction.LONG⟩]
    (by decide) (by decide)
    (by norm_num [scenarioSt, calcSignalsLoop, signalsForTicker,
      get_mt5_equivalent, longSignalsFor, shortSignalsFor, exitSignalFor,
      exit_positions, get_positions_prices, ismax_postions, calculate_pct_change,
      listMin, listMax, List.find?, List.lookup])
    "AAA"

/-- The idle bridge with a stale response value left over from an earlier
round trip. -/
def idleBridge : BridgeState :=
  { pendingPrompt := none, promptValue := some "stale", promptReady := false,
    logLines := [] }

/-- C8: submitting a response while no prompt is pending logs the input but
leaves the stored response value and the response-ready flag unchanged, and
(being a total function of the state) raises nothing. -/
theorem C8_respond_without_pending_is_noop (s : BridgeState) (v : String)
    (h : s.pendingPrompt = none) :
    (handle_prompt_response v s).promptValue = s.promptValue ∧
    (handle_prompt_response v s).promptReady = s.promptReady := by
  unfold handle_prompt_response
  simp [truthyPrompt, h]

/-- Witness for C8: a late response on the idle bridge. -/
theorem C8_witness :
    (handle_prompt_response "late" idleBridge).promptValue = idleBridge.promptValue ∧
    (handle_prompt_response "late" idleBridge).promptReady = idleBridge.promptReady :=
  C8_respond_without_pending_is_noop idleBridge "late" rfl

/-- C9: publishing a snapshot that is value-equal to the last published one is
a no-op: the publisher state (last published snapshot, chart canvas, redraw
count) is returned unchanged. -/
theorem C9_publish_unchanged_is_noop (threshold : ℚ) (snap : List (String × ℚ))
    (st : ChartState) (h : dictBeq snap st.lastSentiments = true) :
    update_charts threshold snap st = st := by
  unfold update_charts
  simp [h]

/-- Witness for C9: republishing the snapshot already on display (same single
entry) changes nothing. -/
theorem C9_witness :
    update_charts (1/5) [("AAPL", 1)]
      { lastSentiments := [("AAPL", 1)], chartCanvas := some [("AAPL", 1)],
        redrawCount := 3 }
      = { lastSentiments := [("AAPL", 1)], chartCanvas := some [("AAPL", 1)],
          redrawCount := 3 } :=
  C9_publish_unchanged_is_noop (1/5) [("AAPL", 1)] _ (by simp [dictBeq])

/-- The initial bridge configuration of the C7 interleaving: both requesters
about to call `gui_safe_prompt`, with prompts "A" and "B". -/
def c7Start : BridgeConfig :=
  { state := { pendingPrompt := none, promptValue := none, promptReady := false,
               logLines := [] }
    t1 := { pc := ReqPc.atSetPending, prompt := "A", result := none }
    t2 := { pc := ReqPc.atSetPending, prompt := "B", result := none } }

/-- Schedule prefix: the first requester runs alone up to its blocking wait. -/
def c7Pre : List SchedEvent :=
  [SchedEvent.run1, SchedEvent.run1, SchedEvent.run1, SchedEvent.run1]

/-- Full schedule: the second requester then also runs up to its wait, the
responder answers once, and both requesters wake. -/
def c7Full : List SchedEvent :=
  c7Pre ++ [SchedEvent.run2, SchedEvent.run2, SchedEvent.run2, SchedEvent.run2,
    SchedEvent.respond "yes", SchedEvent.run1, SchedEvent.run2]

/-- Counterexample for C7: after the first `gui_safe_prompt` call has
published prompt "A" and blocked (nothing answered yet), one step of a second
concurrent call overwrites the pending prompt with "B"; after a single
response "yes", both calls return "yes" -- the second call neither queued nor
preserved the first pending prompt, and the one response was consumed by both
requests. -/
theorem C7_counterexample :
    (runSched c7Start c7Pre).state.pendingPrompt = some "A" ∧
    (runSched c7Start c7Pre).state.promptReady = false ∧
    (runSched c7Start c7Pre).t1.result = none ∧
    (runSched c7Start (c7Pre ++ [SchedEvent.run2])).state.pendingPrompt = some "B" ∧
    (runSched c7Start (c7Pre ++ [SchedEvent.run2])).t1.result = none ∧
    (runSched c7Start c7Full).t1.result = some "yes" ∧
    (runSched c7Start c7Full).t2.result = some "yes" := by decide

/-- C7 (amended): `gui_safe_prompt` takes no lock and never queues: its first
statement unconditionally overwrites the shared pending prompt with its own,
whatever the bridge state -- in particular also while an earlier request is
still awaiting its answer; with one response the second concurrent request
does not preserve the first request's pending prompt (see the counterexample
for the full interleaving in which both requests then return the same single
response). -/
theorem C7_amended (s : BridgeState) (t : ReqThread)
    (h : t.pc = ReqPc.atSetPending) :
    ((reqStep s t).1).pendingPrompt = some t.prompt ∧
    ((reqStep s t).2).pc = ReqPc.atClearValue := by
  unfold reqStep
  rw [h]
  exact ⟨rfl, rfl⟩

/-- Witness for C7 (amended): the overwriting step applied on a state in which
prompt "A" is pending and unanswered. -/
theorem C7_amended_witness :
    ((reqStep
        { pendingPrompt := some "A", promptValue := none, promptReady := false,
          logLines := ["A"] }
        { pc := ReqPc.atSetPending, prompt := "B", result := none }).1).pendingPrompt
      = some "B" ∧
    ((reqStep
        { pendingPrompt := some "A", promptValue := none, promptReady := false,
          logLines := ["A"] }
        { pc := ReqPc.atSetPending, prompt := "B", result := none }).2).pc
      = ReqPc.atClearValue :=
  C7_amended _ _ rfl

end Strader
